import Mathlib

/-!
Verification of the DevOps-Toolchain-Pipeline repository.

Shallow embedding of:
  * `src/service/src/utils.py`          (generate_id, load_json_file,
    save_json_file, parse_version, bump_version)
  * `src/devops-toolchain/cli/devopsctl.py`   (run_script, cmd_lint .. cmd_publish,
    cmd_all)
  * `src/devops-toolchain/service/src/main.py` (get_config)

File-system state, environment variables and subprocess results are passed
explicitly; Python exceptions are modelled with `Option`/`Except`.
-/

namespace DT

/-! ### Python `int(str)` and version utilities (`src/service/src/utils.py`) -/

/-- Whitespace characters stripped by Python `int()` before parsing
(the common ASCII whitespace). -/
def pySpace (c : Char) : Bool :=
  c = ' ' || c = '\t' || c = '\n' || c = '\r' || c = '\x0b' || c = '\x0c'

/-- Strip leading and trailing whitespace from a character list. -/
def stripWS (cs : List Char) : List Char :=
  ((cs.dropWhile pySpace).reverse.dropWhile pySpace).reverse

/-- A nonempty all-digit character list read as a natural number,
`none` otherwise. -/
def digitsToNat (ds : List Char) : Option Nat :=
  if ds.isEmpty then none
  else if ds.all Char.isDigit then
    some (ds.foldl (fun a c => 10 * a + (c.toNat - 48)) 0)
  else none

/-- Model of Python `int(s)` for a string `s` in base 10: strip surrounding
whitespace, allow one leading sign, then require a nonempty digit string.
(Digit-grouping underscores, accepted by CPython, are not modelled; no input
in this development uses them.)  `none` models the `ValueError`. -/
def pyInt (s : String) : Option Int :=
  match stripWS s.toList with
  | '+' :: ds => (digitsToNat ds).map Int.ofNat
  | '-' :: ds => (digitsToNat ds).map (fun n => -(n : Int))
  | ds => (digitsToNat ds).map Int.ofNat

/-- Python `s.split(sep)` for a one-character separator: splitting the empty
string gives `[""]`, and adjacent separators give empty components. -/
def splitOnChar (sep : Char) : List Char → List (List Char)
  | [] => [[]]
  | c :: rest =>
    let r := splitOnChar sep rest
    if c = sep then [] :: r
    else
      match r with
      | f :: t => (c :: f) :: t
      | [] => [[c]]

/-- `version_string.split('.')` as a list of strings. -/
def pySplitDot (s : String) : List String :=
  (splitOnChar '.' s.toList).map String.mk

/-- Convert every component of the list, left to right, failing at the first
non-numeric one — the generator `tuple(int(p) for p in parts)`. -/
def intList : List String → Option (List Int)
  | [] => some []
  | p :: ps =>
    match pyInt p, intList ps with
    | some n, some ns => some (n :: ns)
    | _, _ => none

/-- `parse_version` from `src/service/src/utils.py`:
`parts = version_string.split('.'); return tuple(int(p) for p in parts[:3])`.
`none` models a raised `ValueError`. -/
def parse_version (s : String) : Option (List Int) :=
  intList ((pySplitDot s).take 3)

/-- The f-string `f"{major}.{minor}.{patch}"`. -/
def formatV (a b c : Int) : String :=
  toString a ++ "." ++ toString b ++ "." ++ toString c

/-- `bump_version` from `src/service/src/utils.py`.  Unpacking
`major, minor, patch = parse_version(...)` raises unless the tuple has
exactly three components; every `bump_type` other than `"major"` and
`"minor"` falls into the `else:  # patch` branch. -/
def bump_version (s : String) (bump_type : String) : Option String :=
  match parse_version s with
  | some [major, minor, patch] =>
    if bump_type = "major" then some (formatV (major + 1) 0 0)
    else if bump_type = "minor" then some (formatV major (minor + 1) 0)
    else some (formatV major minor (patch + 1))
  | _ => none

/-- `bump_version` called with its default argument `bump_type="patch"`. -/
def bump_version_default (s : String) : Option String :=
  bump_version s "patch"

/-! ### JSON persistence helpers (`src/service/src/utils.py`)

Python values of type `Dict[str, Any]` are modelled by `PyVal`: the
JSON-native scalars and containers, plus tuples (serialized by `json.dump`
as arrays) and arbitrary non-serializable objects carrying their `str()`
form (serialized via `default=str`).  A JSON document on disk is a `Json`
tree; the textual rendering (`indent=2`) is abstracted away, since
`json.dump`/`json.load` are inverse on documents. -/

inductive Json where
  | null
  | bool (b : Bool)
  | int (n : Int)
  | str (s : String)
  | arr (xs : List Json)
  | obj (kvs : List (String × Json))

inductive PyVal where
  | null
  | bool (b : Bool)
  | int (n : Int)
  | str (s : String)
  | list (xs : List PyVal)
  | tup (xs : List PyVal)
  | dict (kvs : List (String × PyVal))
  | other (strForm : String)

mutual
/-- The document `json.dump(data, f, indent=2, default=str)` writes: tuples
become arrays, non-serializable objects become their `str()` form. -/
def toJson : PyVal → Json
  | .null => .null
  | .bool b => .bool b
  | .int n => .int n
  | .str s => .str s
  | .list xs => .arr (toJsonList xs)
  | .tup xs => .arr (toJsonList xs)
  | .dict kvs => .obj (toJsonKVs kvs)
  | .other s => .str s

def toJsonList : List PyVal → List Json
  | [] => []
  | x :: xs => toJson x :: toJsonList xs

def toJsonKVs : List (String × PyVal) → List (String × Json)
  | [] => []
  | (k, v) :: kvs => (k, toJson v) :: toJsonKVs kvs
end

mutual
/-- The Python value `json.load` returns for a document: arrays come back as
lists, objects as dicts. -/
def fromJson : Json → PyVal
  | .null => .null
  | .bool b => .bool b
  | .int n => .int n
  | .str s => .str s
  | .arr xs => .list (fromJsonList xs)
  | .obj kvs => .dict (fromJsonKVs kvs)

def fromJsonList : List Json → List PyVal
  | [] => []
  | x :: xs => fromJson x :: fromJsonList xs

def fromJsonKVs : List (String × Json) → List (String × PyVal)
  | [] => []
  | (k, v) :: kvs => (k, fromJson v) :: fromJsonKVs kvs
end

mutual
/-- A value `json.dump` serializes without any coercion: no tuples and no
non-serializable objects anywhere inside. -/
def jsonNative : PyVal → Bool
  | .null => true
  | .bool _ => true
  | .int _ => true
  | .str _ => true
  | .list xs => jsonNativeList xs
  | .tup _ => false
  | .dict kvs => jsonNativeKVs kvs
  | .other _ => false

def jsonNativeList : List PyVal → Bool
  | [] => true
  | x :: xs => jsonNative x && jsonNativeList xs

def jsonNativeKVs : List (String × PyVal) → Bool
  | [] => true
  | (_, v) :: kvs => jsonNative v && jsonNativeKVs kvs
end

/-- The file system: a map from path to the JSON document stored there. -/
def FS : Type := String → Option Json

/-- `os.path.exists` / `json.load`: `load_json_file` from
`src/service/src/utils.py` returns `None` when the path does not exist and
the parsed content otherwise. -/
def load_json_file (fs : FS) (filepath : String) : Option PyVal :=
  match fs filepath with
  | none => none
  | some doc => some (fromJson doc)

/-- `os.path.dirname` (POSIX): everything up to the last `/`, with trailing
slashes stripped unless the result is all slashes; `""` when the path has
no `/`. -/
def dirname (p : String) : String :=
  let head := (p.toList.reverse.dropWhile (fun c => c ≠ '/')).reverse
  if head.isEmpty then ""
  else if head.all (fun c => c = '/') then String.mk head
  else String.mk ((head.reverse.dropWhile (fun c => c = '/')).reverse)

/-- `save_json_file` from `src/service/src/utils.py`:
`os.makedirs(os.path.dirname(filepath), exist_ok=True)` raises
`FileNotFoundError` on the empty directory name (before anything is
written); otherwise the serialized document is stored at `filepath`. -/
def save_json_file (fs : FS) (filepath : String) (data : List (String × PyVal)) :
    Except String FS :=
  if dirname filepath = "" then .error "FileNotFoundError"
  else .ok (fun q => if q = filepath then some (toJson (.dict data)) else fs q)

/-! ### Pipeline runner (`src/devops-toolchain/cli/devopsctl.py`)

The process environment the CLI runs in: which scripts exist under
`scripts/`, whether the `bash` interpreter can be found, and the exit code
each script produces when `subprocess.run` invokes it (non-POSIX shells
behave the same once a shell is found, so one availability flag covers the
platform branches). -/

structure World where
  scriptExists : String → Bool
  bashAvailable : Bool
  exitCode : String → Int

/-- `run_script` from `src/devops-toolchain/cli/devopsctl.py`, instrumented
with whether `subprocess.run` completed an invocation: a missing
`scripts/<name>.sh` returns 1 with nothing invoked; a `FileNotFoundError`
from a missing shell is caught and returns 1; otherwise
`result.returncode` is returned unchanged. -/
def runScriptT (w : World) (script_name : String) : Int × Bool :=
  if w.scriptExists script_name = false then (1, false)
  else if w.bashAvailable = false then (1, false)
  else (w.exitCode script_name, true)

/-- The exit code `run_script` returns. -/
def run_script (w : World) (script_name : String) : Int :=
  (runScriptT w script_name).1

def cmd_lint (w : World) : Int := run_script w "lint"

def cmd_test (w : World) : Int := run_script w "test"

def cmd_build (w : World) : Int := run_script w "build"

def cmd_docker (w : World) : Int := run_script w "docker"

def cmd_publish (w : World) : Int := run_script w "publish"

/-- The `stages` list of `cmd_all`, in source order. -/
def stages : List (String × (World → Int)) :=
  [("LINT", cmd_lint), ("TEST", cmd_test), ("BUILD", cmd_build),
   ("DOCKER", cmd_docker), ("PUBLISH", cmd_publish)]

/-- The `for stage_name, stage_func in stages:` loop of `cmd_all`,
instrumented with the list of stage names whose `stage_func` was invoked:
each stage runs in turn, and a non-zero result returns immediately. -/
def runStagesT (w : World) : List (String × (World → Int)) → Int × List String
  | [] => (0, [])
  | (stage_name, stage_func) :: rest =>
    let result := stage_func w
    if result ≠ 0 then (result, [stage_name])
    else
      let r := runStagesT w rest
      (r.1, stage_name :: r.2)

/-- `cmd_all` with its trace of invoked stages. -/
def cmd_allT (w : World) : Int × List String :=
  runStagesT w stages

/-- The exit code `cmd_all` returns. -/
def cmd_all (w : World) : Int :=
  (cmd_allT w).1

/-! ### Configuration loader (`src/devops-toolchain/service/src/main.py`) -/

/-- The process environment variables. -/
def Env : Type := String → Option String

/-- `os.getenv(key, default)`. -/
def getenv (e : Env) (key default : String) : String :=
  (e key).getD default

/-- `get_config` from `src/devops-toolchain/service/src/main.py`.  The
`version` entry comes from `get_version()`, which reads the package's
`__version__` attribute (not part of the five source files); it is passed
in as a parameter. -/
def get_config (e : Env) (version : String) : List (String × String) :=
  [("app_name", getenv e "APP_NAME" "devops-toolchain"),
   ("environment", getenv e "ENVIRONMENT" "development"),
   ("log_level", getenv e "LOG_LEVEL" "INFO"),
   ("version", version)]

/-! ### Identifier generator (`src/service/src/utils.py`)

`hashlib.sha256` is embedded in full (FIPS 180-4, over byte lists, 32-bit
words as `Nat` reduced mod `2^32`), so that `generate_id` is the literal
composition the source writes:
`sha256(f"{prefix}-{timestamp}-{os.getpid()}".encode()).hexdigest()[:12]`. -/

/-- Reduce to a 32-bit word. -/
def w32 (n : Nat) : Nat := n % 4294967296

/-- 32-bit right rotation (argument assumed < 2^32). -/
def rotr (n x : Nat) : Nat := w32 ((x >>> n) ||| (x <<< (32 - n)))

def bSig0 (x : Nat) : Nat := (rotr 2 x) ^^^ (rotr 13 x) ^^^ (rotr 22 x)

def bSig1 (x : Nat) : Nat := (rotr 6 x) ^^^ (rotr 11 x) ^^^ (rotr 25 x)

def sSig0 (x : Nat) : Nat := (rotr 7 x) ^^^ (rotr 18 x) ^^^ (x >>> 3)

def sSig1 (x : Nat) : Nat := (rotr 17 x) ^^^ (rotr 19 x) ^^^ (x >>> 10)

def chF (x y z : Nat) : Nat := (x &&& y) ^^^ ((x ^^^ 4294967295) &&& z)

def majF (x y z : Nat) : Nat := (x &&& y) ^^^ (x &&& z) ^^^ (y &&& z)

/-- The 64 SHA-256 round constants (FIPS 180-4 §4.2.2, written in
decimal). -/
def K256 : List Nat :=
  [1116352408, 1899447441, 3049323471, 3921009573, 961987163,
   1508970993, 2453635748, 2870763221, 3624381080, 310598401,
   607225278, 1426881987, 1925078388, 2162078206, 2614888103,
   3248222580, 3835390401, 4022224774, 264347078, 604807628,
   770255983, 1249150122, 1555081692, 1996064986, 2554220882,
   2821834349, 2952996808, 3210313671, 3336571891, 3584528711,
   113926993, 338241895, 666307205, 773529912, 1294757372,
   1396182291, 1695183700, 1986661051, 2177026350, 2456956037,
   2730485921, 2820302411, 3259730800, 3345764771, 3516065817,
   3600352804, 4094571909, 275423344, 430227734, 506948616,
   659060556, 883997877, 958139571, 1322822218, 1537002063,
   1747873779, 1955562222, 2024104815, 2227730452, 2361852424,
   2428436474, 2756734187, 3204031479, 3329325298]

/-- SHA-256 padding: append `0x80`, zeros to 56 mod 64, then the bit length
as eight big-endian bytes. -/
def padMsg (msg : List Nat) : List Nat :=
  let L := msg.length
  let k := (119 - L % 64) % 64
  msg ++ 0x80 :: (List.replicate k 0 ++
    (List.range 8).map (fun i => ((L * 8) >>> (8 * (7 - i))) % 256))

/-- Group bytes into big-endian 32-bit words. -/
def bytesToWords : List Nat → List Nat
  | b0 :: b1 :: b2 :: b3 :: rest =>
    ((((b0 <<< 8) ||| b1) <<< 8 ||| b2) <<< 8 ||| b3) :: bytesToWords rest
  | _ => []

/-- Split into 64-byte chunks (`fuel` bounds the recursion so that the
kernel can evaluate; `l.length` steps always suffice). -/
def chunks64Aux : Nat → List Nat → List (List Nat)
  | 0, _ => []
  | fuel + 1, l => if l = [] then [] else l.take 64 :: chunks64Aux fuel (l.drop 64)

/-- Split into 64-byte chunks. -/
def chunks64 (l : List Nat) : List (List Nat) :=
  chunks64Aux l.length l

/-- Extend the 16 words of a block to the 64-entry message schedule
(`n` extension steps remaining). -/
def extendSchedule : Nat → Array Nat → Array Nat
  | 0, w => w
  | n + 1, w =>
    let i := w.size
    let x := w32 ((w.getD (i - 16) 0) + sSig0 (w.getD (i - 15) 0) +
      (w.getD (i - 7) 0) + sSig1 (w.getD (i - 2) 0))
    extendSchedule n (w.push x)

/-- The eight 32-bit working variables. -/
structure Hash8 where
  a : Nat
  b : Nat
  c : Nat
  d : Nat
  e : Nat
  f : Nat
  g : Nat
  h : Nat

/-- The SHA-256 initial hash value (FIPS 180-4 §5.3.3, written in
decimal). -/
def initH : Hash8 :=
  ⟨1779033703, 3144134277, 1013904242, 2773480762,
   1359893119, 2600822924, 528734635, 1541459225⟩

/-- One compression round. -/
def roundStep (s : Hash8) (k w : Nat) : Hash8 :=
  let t1 := w32 (s.h + bSig1 s.e + chF s.e s.f s.g + k + w)
  let t2 := w32 (bSig0 s.a + majF s.a s.b s.c)
  ⟨w32 (t1 + t2), s.a, s.b, s.c, w32 (s.d + t1), s.e, s.f, s.g⟩

/-- Compress one 16-word block into the running hash. -/
def compress (s : Hash8) (block : List Nat) : Hash8 :=
  let ws := (extendSchedule 48 block.toArray).toList
  let t := (K256.zip ws).foldl (fun st kw => roundStep st kw.1 kw.2) s
  ⟨w32 (s.a + t.a), w32 (s.b + t.b), w32 (s.c + t.c), w32 (s.d + t.d),
   w32 (s.e + t.e), w32 (s.f + t.f), w32 (s.g + t.g), w32 (s.h + t.h)⟩

/-- SHA-256 of a byte list, as eight 32-bit words. -/
def sha256Words (msg : List Nat) : List Nat :=
  let fin := ((chunks64 (padMsg msg)).map bytesToWords).foldl compress initH
  [fin.a, fin.b, fin.c, fin.d, fin.e, fin.f, fin.g, fin.h]

/-- Lower-case hex digit. -/
def hexChar (n : Nat) : Char :=
  if n < 10 then Char.ofNat (48 + n) else Char.ofNat (87 + n)

/-- A 32-bit word as eight hex characters, most significant first. -/
def wordHex (w : Nat) : List Char :=
  (List.range 8).map (fun i => hexChar ((w >>> (4 * (7 - i))) % 16))

/-- `hashlib.sha256(bytes).hexdigest()` as a character list. -/
def hexdigest (msg : List Nat) : List Char :=
  ((sha256Words msg).map wordHex).flatten

/-- `str.encode()`: the UTF-8 bytes of a string. -/
def strBytes (s : String) : List Nat :=
  s.toUTF8.toList.map (fun b => b.toNat)

/-- A lower-case hexadecimal character `0-9a-f`. -/
def isHexChar (c : Char) : Bool :=
  c.isDigit || ('a' ≤ c && c ≤ 'f')

/-- `generate_id` from `src/service/src/utils.py`, with the two ambient
inputs — `datetime.now(timezone.utc).isoformat()` and `os.getpid()` —
passed explicitly. -/
def generate_id (pfx timestamp : String) (pid : Nat) : String :=
  let hash_input := pfx ++ "-" ++ timestamp ++ "-" ++ toString pid
  let hash_value := (hexdigest (strBytes hash_input)).take 12
  pfx ++ "-" ++ String.mk hash_value

/-! ## Theorems -/

/-! ### Version utilities -/

theorem intList_eq_none_iff (ps : List String) :
    intList ps = none ↔ ∃ p ∈ ps, pyInt p = none := by
  induction ps with
  | nil => simp [intList]
  | cons p ps ih =>
    cases hp : pyInt p with
    | none => simp [intList, hp]
    | some n =>
      cases hq : intList ps with
      | none =>
        simp only [intList, hp, hq]
        refine iff_of_true trivial ?_
        obtain ⟨q, hq1, hq2⟩ := ih.mp hq
        exact ⟨q, List.mem_cons_of_mem _ hq1, hq2⟩
      | some ns =>
        simp only [intList, hp, hq]
        constructor
        · intro h; exact absurd h (by simp)
        · rintro ⟨q, hq1, hq2⟩
          rcases List.mem_cons.mp hq1 with rfl | hmem
          · exact absurd hp (by simp [hq2])
          · have : intList ps = none := (ih.mpr ⟨q, hmem, hq2⟩)
            simp [this] at hq

theorem intList_length (ps : List String) (l : List Int) :
    intList ps = some l → l.length = ps.length := by
  induction ps generalizing l with
  | nil => intro h; simp [intList] at h; simp [← h]
  | cons p ps ih =>
    intro h
    cases hp : pyInt p with
    | none => simp [intList, hp] at h
    | some n =>
      cases hq : intList ps with
      | none => simp [intList, hp, hq] at h
      | some ns =>
        simp only [intList, hp, hq, Option.some.injEq] at h
        simp [← h, ih ns hq]

/-- Claim C2 fails as stated: `"1.2"` has only two (numeric) components —
fewer than three — yet `parse_version` returns the two-element tuple
`(1, 2)` instead of raising. -/
theorem c2_counterexample :
    parse_version "1.2" = some [1, 2] ∧ (pySplitDot "1.2").length = 2 := by
  decide

/-- Claim C2 (amended): `parse_version` splits on `'.'`, takes the first
three components and converts each to an integer, so
`parse_version "10.20.30" = (10, 20, 30)`; it raises if and only if one of
the first three components is non-numeric, and when fewer than three
components are present it returns a correspondingly shorter tuple rather
than raising. -/
theorem c2_parse_version :
    parse_version "10.20.30" = some [10, 20, 30]
    ∧ (∀ s, parse_version s = none ↔ ∃ p ∈ (pySplitDot s).take 3, pyInt p = none)
    ∧ (∀ s l, parse_version s = some l → l.length = ((pySplitDot s).take 3).length) := by
  refine ⟨by decide, fun s => ?_, fun s l h => ?_⟩
  · exact intList_eq_none_iff _
  · exact intList_length _ _ h

/-- Witness for C2 at a concrete input. -/
theorem c2_witness : ([(1 : Int), 2]).length = ((pySplitDot "1.2").take 3).length :=
  c2_parse_version.2.2 "1.2" [1, 2] (by decide)

/-- Claim C4: on every well-formed version string `bump_version` follows the
semantic-version reset rules — major bump zeroes minor and patch, minor bump
zeroes patch, patch bump only increments patch, and the default kind is
patch; in particular on `"1.2.3"`: patch → `"1.2.4"`, minor → `"1.3.0"`,
major → `"2.0.0"`. -/
theorem c4_bump_version :
    (∀ s a b c, parse_version s = some [a, b, c] →
      bump_version s "major" = some (formatV (a + 1) 0 0)
      ∧ bump_version s "minor" = some (formatV a (b + 1) 0)
      ∧ bump_version s "patch" = some (formatV a b (c + 1))
      ∧ bump_version_default s = some (formatV a b (c + 1)))
    ∧ bump_version "1.2.3" "patch" = some "1.2.4"
    ∧ bump_version "1.2.3" "minor" = some "1.3.0"
    ∧ bump_version "1.2.3" "major" = some "2.0.0"
    ∧ bump_version_default "1.2.3" = some "1.2.4" := by
  refine ⟨fun s a b c h => ?_, by decide, by decide, by decide, by decide⟩
  refine ⟨?_, ?_, ?_, ?_⟩ <;> simp [bump_version, bump_version_default, h]

/-- Witness for C4 at a concrete input. -/
theorem c4_witness : bump_version "9.9.9" "major" = some (formatV (9 + 1) 0 0) :=
  (c4_bump_version.1 "9.9.9" 9 9 9 (by decide)).1

/-- Claim C9: every bump kind other than `"major"` and `"minor"` — including
invalid kinds such as `"foo"` or the empty string — behaves exactly as a
patch bump, raising no error. -/
theorem c9_bump_version_fallback :
    ∀ s a b c k, parse_version s = some [a, b, c] → k ≠ "major" → k ≠ "minor" →
      bump_version s k = some (formatV a b (c + 1))
      ∧ bump_version s k = bump_version s "patch" := by
  intro s a b c k h hk1 hk2
  constructor <;> simp [bump_version, h, hk1, hk2]

/-- Witness for C9 at a concrete input. -/
theorem c9_witness : bump_version "1.2.3" "foo" = bump_version "1.2.3" "patch" :=
  (c9_bump_version_fallback "1.2.3" 1 2 3 "foo" (by decide) (by decide) (by decide)).2

/-! ### Pipeline runner -/

/-- Claim C5: `run_script` returns 1 without invoking any subprocess when
the script file is missing, returns 1 when the shell interpreter is
missing, and otherwise returns the invoked script's exit code unchanged. -/
theorem c5_run_script :
    ∀ (w : World) (name : String),
      (w.scriptExists name = false → runScriptT w name = (1, false))
      ∧ (w.scriptExists name = true → w.bashAvailable = false →
          run_script w name = 1)
      ∧ (w.scriptExists name = true → w.bashAvailable = true →
          run_script w name = w.exitCode name) := by
  intro w name
  refine ⟨fun h1 => ?_, fun h1 h2 => ?_, fun h1 h2 => ?_⟩ <;>
    simp [runScriptT, run_script, h1]
  · simp [h2]
  · simp [h2]

/-- Witness for C5 at concrete worlds. -/
theorem c5_witness :
    runScriptT ⟨fun _ => false, true, fun _ => 7⟩ "lint" = (1, false)
    ∧ run_script ⟨fun _ => true, false, fun _ => 7⟩ "lint" = 1
    ∧ run_script ⟨fun _ => true, true, fun _ => 7⟩ "lint" =
        World.exitCode ⟨fun _ => true, true, fun _ => 7⟩ "lint" :=
  ⟨(c5_run_script ⟨fun _ => false, true, fun _ => 7⟩ "lint").1 rfl,
   (c5_run_script ⟨fun _ => true, false, fun _ => 7⟩ "lint").2.1 rfl rfl,
   (c5_run_script ⟨fun _ => true, true, fun _ => 7⟩ "lint").2.2 rfl rfl⟩

/-- Claim C1: `cmd_all` runs lint, test, build, docker, publish in that
fixed order, stops at the first stage returning a non-zero code and returns
that code with no later stage invoked, and returns 0 if and only if all
five stages return 0. -/
theorem c1_cmd_all :
    ∀ w : World,
      (cmd_all w = 0 ↔
        run_script w "lint" = 0 ∧ run_script w "test" = 0 ∧
        run_script w "build" = 0 ∧ run_script w "docker" = 0 ∧
        run_script w "publish" = 0)
      ∧ (run_script w "lint" ≠ 0 →
          cmd_allT w = (run_script w "lint", ["LINT"]))
      ∧ (run_script w "lint" = 0 → run_script w "test" ≠ 0 →
          cmd_allT w = (run_script w "test", ["LINT", "TEST"]))
      ∧ (run_script w "lint" = 0 → run_script w "test" = 0 →
          run_script w "build" ≠ 0 →
          cmd_allT w = (run_script w "build", ["LINT", "TEST", "BUILD"]))
      ∧ (run_script w "lint" = 0 → run_script w "test" = 0 →
          run_script w "build" = 0 → run_script w "docker" ≠ 0 →
          cmd_allT w = (run_script w "docker", ["LINT", "TEST", "BUILD", "DOCKER"]))
      ∧ (run_script w "lint" = 0 → run_script w "test" = 0 →
          run_script w "build" = 0 → run_script w "docker" = 0 →
          run_script w "publish" ≠ 0 →
          cmd_allT w = (run_script w "publish",
            ["LINT", "TEST", "BUILD", "DOCKER", "PUBLISH"]))
      ∧ (run_script w "lint" = 0 → run_script w "test" = 0 →
          run_script w "build" = 0 → run_script w "docker" = 0 →
          run_script w "publish" = 0 →
          cmd_allT w = (0, ["LINT", "TEST", "BUILD", "DOCKER", "PUBLISH"])) := by
  intro w
  by_cases hl : run_script w "lint" = 0 <;>
    by_cases ht : run_script w "test" = 0 <;>
      by_cases hb : run_script w "build" = 0 <;>
        by_cases hd : run_script w "docker" = 0 <;>
          by_cases hp : run_script w "publish" = 0 <;>
            simp [cmd_all, cmd_allT, runStagesT, stages, cmd_lint, cmd_test,
              cmd_build, cmd_docker, cmd_publish, hl, ht, hb, hd, hp]

/-- Witness for C1: in a world where the test script exits with code 2,
the pipeline returns 2 having invoked only lint and test. -/
theorem c1_witness :
    cmd_allT ⟨fun _ => true, true, fun n => if n = "test" then 2 else 0⟩ =
      (2, ["LINT", "TEST"]) :=
  (c1_cmd_all ⟨fun _ => true, true, fun n => if n = "test" then 2 else 0⟩).2.2.1
    (by decide) (by decide)

/-! ### Configuration loader -/

/-- Claim C8: `get_config` returns a mapping whose `app_name`,
`environment` and `log_level` entries come from the environment variables
`APP_NAME`, `ENVIRONMENT` and `LOG_LEVEL` with fallback defaults
`"devops-toolchain"`, `"development"` and `"INFO"`, plus a `version`
entry; nothing is validated or coerced. -/
theorem c8_get_config :
    ∀ (e : Env) (version : String),
      (get_config e version).lookup "app_name" =
        some ((e "APP_NAME").getD "devops-toolchain")
      ∧ (get_config e version).lookup "environment" =
        some ((e "ENVIRONMENT").getD "development")
      ∧ (get_config e version).lookup "log_level" =
        some ((e "LOG_LEVEL").getD "INFO")
      ∧ (get_config e version).lookup "version" = some version
      ∧ (get_config e version).length = 4 := by
  intro e version
  exact ⟨rfl, rfl, rfl, rfl, rfl⟩

/-! ### JSON persistence -/

/-- Claim C6: `load_json_file` returns `None` (not an error) for every path
that does not exist, and the parsed content for every path that exists and
holds valid JSON. -/
theorem c6_load_json_file :
    ∀ (fs : FS) (p : String),
      (fs p = none → load_json_file fs p = none)
      ∧ (∀ doc, fs p = some doc → load_json_file fs p = some (fromJson doc)) := by
  intro fs p
  refine ⟨fun h => ?_, fun doc h => ?_⟩ <;> simp [load_json_file, h]

/-- Witness for C6 at a concrete file system. -/
theorem c6_witness :
    load_json_file (fun q => if q = "a/b.json" then some (.obj []) else none)
      "missing.json" = none
    ∧ load_json_file (fun q => if q = "a/b.json" then some (.obj []) else none)
      "a/b.json" = some (fromJson (.obj [])) :=
  ⟨(c6_load_json_file (fun q => if q = "a/b.json" then some (.obj []) else none)
      "missing.json").1 rfl,
   (c6_load_json_file (fun q => if q = "a/b.json" then some (.obj []) else none)
      "a/b.json").2 (.obj []) rfl⟩

mutual
theorem roundtrip : ∀ v : PyVal, jsonNative v = true → fromJson (toJson v) = v
  | .null, _ => rfl
  | .bool _, _ => rfl
  | .int _, _ => rfl
  | .str _, _ => rfl
  | .list xs, h => by
    have hxs : jsonNativeList xs = true := by simpa [jsonNative] using h
    simp only [toJson, fromJson, roundtripList xs hxs]
  | .dict kvs, h => by
    have hkvs : jsonNativeKVs kvs = true := by simpa [jsonNative] using h
    simp only [toJson, fromJson, roundtripKVs kvs hkvs]

theorem roundtripList :
    ∀ xs : List PyVal, jsonNativeList xs = true →
      fromJsonList (toJsonList xs) = xs
  | [], _ => rfl
  | x :: xs, h => by
    have h1 : jsonNative x = true ∧ jsonNativeList xs = true := by
      simpa [jsonNativeList, Bool.and_eq_true] using h
    simp only [toJsonList, fromJsonList, roundtrip x h1.1, roundtripList xs h1.2]

theorem roundtripKVs :
    ∀ kvs : List (String × PyVal), jsonNativeKVs kvs = true →
      fromJsonKVs (toJsonKVs kvs) = kvs
  | [], _ => rfl
  | (k, v) :: kvs, h => by
    have h1 : jsonNative v = true ∧ jsonNativeKVs kvs = true := by
      simpa [jsonNativeKVs, Bool.and_eq_true] using h
    simp only [toJsonKVs, fromJsonKVs, roundtrip v h1.1, roundtripKVs kvs h1.2]
end

/-- Claim C3 fails as stated: saving a dictionary holding a value
`json.dump` cannot serialize (here an object whose `str()` form is
`"2024-01-01"`) coerces it to its string form via `default=str`, so loading
the file back yields the string, not a structure equal to the input. -/
theorem c3_counterexample :
    (save_json_file (fun _ => none) "tmp/a.json"
        [("k", PyVal.other "2024-01-01")]).map
      (fun fs => load_json_file fs "tmp/a.json") =
      .ok (some (.dict [("k", PyVal.str "2024-01-01")]))
    ∧ PyVal.dict [("k", PyVal.str "2024-01-01")] ≠
      PyVal.dict [("k", PyVal.other "2024-01-01")] := by
  exact ⟨rfl, by simp⟩

/-- Claim C3 (amended): for every dictionary whose values are JSON-native
(no tuples and no non-serializable objects anywhere inside) and every path
with a nonempty directory component, `save_json_file` followed by
`load_json_file` on the same path returns a structure equal to the original
input; tuples come back as lists and non-serializable values as their
string form. -/
theorem c3_save_load_roundtrip :
    ∀ (fs : FS) (p : String) (data : List (String × PyVal)),
      dirname p ≠ "" → jsonNativeKVs data = true →
      ∃ fs', save_json_file fs p data = .ok fs'
        ∧ load_json_file fs' p = some (.dict data) := by
  intro fs p data hp hdata
  refine ⟨fun q => if q = p then some (toJson (.dict data)) else fs q,
    by simp [save_json_file, hp], ?_⟩
  have : fromJson (toJson (PyVal.dict data)) = .dict data :=
    roundtrip _ (by simpa [jsonNative] using hdata)
  simp [load_json_file, this]

/-- Witness for C3 (amended) at a concrete input. -/
theorem c3_witness :
    ∃ fs', save_json_file (fun _ => none) "tmp/test.json"
        [("key", PyVal.str "value"), ("number", PyVal.int 42)] = .ok fs'
      ∧ load_json_file fs' "tmp/test.json" =
        some (.dict [("key", PyVal.str "value"), ("number", PyVal.int 42)]) :=
  c3_save_load_roundtrip (fun _ => none) "tmp/test.json"
    [("key", PyVal.str "value"), ("number", PyVal.int 42)]
    (by decide) (by decide)

/-- Claim C10: on every filepath with no directory separator (empty
directory component, e.g. a bare filename), `save_json_file` raises before
writing anything, because `os.makedirs` is called on the empty string. -/
theorem c10_save_bare_filename :
    ∀ (fs : FS) (p : String) (data : List (String × PyVal)),
      p.toList.all (fun c => c ≠ '/') = true →
      save_json_file fs p data = .error "FileNotFoundError" := by
  intro fs p data h
  have hall : ∀ c ∈ p.data.reverse, c ≠ '/' := by
    intro c hc
    have := List.all_eq_true.mp h c (List.mem_reverse.mp hc)
    simpa using this
  have hdrop : List.dropWhile (fun c => !decide (c = '/')) p.data.reverse = [] := by
    rw [List.dropWhile_eq_nil_iff]
    intro c hc
    simpa using hall c hc
  have hd : dirname p = "" := by
    simp [dirname, hdrop]
  simp [save_json_file, hd]

/-- Witness for C10 at a concrete bare filename. -/
theorem c10_witness :
    save_json_file (fun _ => none) "data.json" [("k", PyVal.null)] =
      .error "FileNotFoundError" :=
  c10_save_bare_filename (fun _ => none) "data.json" [("k", PyVal.null)]
    (by decide)

/-! ### Identifier generator -/

theorem hexChar_isHex (n : Nat) (h : n < 16) : isHexChar (hexChar n) = true := by
  interval_cases n <;> decide

theorem wordHex_length (w : Nat) : (wordHex w).length = 8 := by
  simp [wordHex]

theorem wordHex_isHex (w : Nat) : (wordHex w).all isHexChar = true := by
  simp only [wordHex, List.all_eq_true]
  intro c hc
  simp only [List.mem_map] at hc
  obtain ⟨i, _, rfl⟩ := hc
  exact hexChar_isHex _ (Nat.mod_lt _ (by norm_num))

theorem sha256Words_length (msg : List Nat) : (sha256Words msg).length = 8 := rfl

theorem flatten_wordHex_length (ws : List Nat) :
    ((ws.map wordHex).flatten).length = 8 * ws.length := by
  induction ws with
  | nil => simp
  | cons w ws ih => simp [ih, wordHex_length]; omega

theorem hexdigest_length (msg : List Nat) : (hexdigest msg).length = 64 := by
  rw [hexdigest, flatten_wordHex_length, sha256Words_length]

set_option maxRecDepth 10000 in
/-- The SHA-256 embedding reproduces the FIPS 180-4 test vector for
`"abc"` (bytes `[97, 98, 99]`). -/
theorem sha256_known_answer : String.mk (hexdigest [97, 98, 99]) =
    "ba7816bf8f01cfea414140de5dae2223b00361a396177a9cb410ff61f20015ad" := by
  decide

theorem hexdigest_isHex (msg : List Nat) : (hexdigest msg).all isHexChar = true := by
  simp only [hexdigest, List.all_eq_true]
  intro c hc
  simp only [List.mem_flatten, List.mem_map] at hc
  obtain ⟨l, ⟨w, _, rfl⟩, hcl⟩ := hc
  exact List.all_eq_true.mp (wordHex_isHex w) c hcl

/-- Claim C7: for every prefix (and ambient timestamp and pid),
`generate_id` returns `<prefix>-<digest>` where the digest is the first 12
hexadecimal characters of the SHA-256 hash of
`"<prefix>-<timestamp>-<pid>"`; in particular the result starts with the
prefix followed by `'-'` and the digest has exactly 12 hex characters. -/
theorem c7_generate_id :
    ∀ (pfx timestamp : String) (pid : Nat),
      ∃ d : List Char,
        generate_id pfx timestamp pid = pfx ++ "-" ++ String.mk d
        ∧ d = (hexdigest (strBytes
            (pfx ++ "-" ++ timestamp ++ "-" ++ toString pid))).take 12
        ∧ d.length = 12
        ∧ d.all isHexChar = true := by
  intro pfx timestamp pid
  refine ⟨(hexdigest (strBytes
      (pfx ++ "-" ++ timestamp ++ "-" ++ toString pid))).take 12,
    rfl, rfl, ?_, ?_⟩
  · simp [List.length_take, hexdigest_length]
  · have hall := hexdigest_isHex (strBytes
      (pfx ++ "-" ++ timestamp ++ "-" ++ toString pid))
    rw [List.all_eq_true] at hall ⊢
    intro c hc
    exact hall c (List.take_subset _ _ hc)

end DT
